import Mathlib

/-!
Verification of the accounts core of the pulsate repository.

The repository code under scrutiny is the `AccountController` adaptation
layer and the HTTP route wiring in `pkg/accounts/mod.ts`.  The domain
services (register, authenticate, edit, freeze, silence, follow, unfollow,
verify-token, fetch, fetch-follow) are consumed by that code through
interfaces; their behaviour is modelled here from the specification's
component descriptions.  Stores are embedded as explicit state records and
stateful operations return a result paired with the successor store.
-/

deriving instance DecidableEq for Except

/-- Account role enumeration: normal, moderator, admin (spec data model). -/
inductive Role where
  | normal
  | moderator
  | admin
deriving DecidableEq, Repr

/-- Elevated roles are moderator and admin; they gate moderation actions. -/
def Role.isElevated : Role → Bool
  | .normal => false
  | .moderator => true
  | .admin => true

/-- Account lifecycle status: active, notActivated, frozen (spec data model). -/
inductive AccountStatus where
  | active
  | notActivated
  | frozen
deriving DecidableEq, Repr

/-- Closed taxonomy of domain error kinds returned by the services. -/
inductive AccountError where
  | notFound
  | eTagMismatch
  | mailAddressLength
  | authenticationFailed
  | loginRejected
  | tokenInvalid
  | insufficientPermission
  | alreadyFrozen
  | alreadySilenced
  | alreadyFollowing
  | notFollowing
  | followingBlocked
  | nameInvalidUsage
  | nameTooLong
  | passphraseRequirementsNotMet
  | nameAlreadyInUse
  | mailAddressAlreadyInUse
  | mailAlreadyVerified
deriving DecidableEq, Repr

/-- The Account entity with its immutable identity, mutable profile fields,
credential hash, role and moderation flags (spec data model). -/
structure Account where
  id : String
  name : String
  mail : String
  nickname : String
  passphraseHash : String
  bio : String
  role : Role
  frozen : Bool
  silenced : Bool
  status : AccountStatus
  createdAt : Nat
deriving DecidableEq, Repr

/-- Modelled from the spec: the entity-version token is derived
deterministically from the mutable-field tuple of an account.  It is
modelled as that tuple itself — the universal deterministic derivation,
through which any concrete content hash factors. -/
structure Etag where
  mail : String
  nickname : String
  passphraseHash : String
  bio : String
  frozen : Bool
  silenced : Bool
  status : AccountStatus
deriving DecidableEq, Repr

/-- Modelled from the spec: recompute the etag from the mutable fields. -/
def computeEtag (a : Account) : Etag where
  mail := a.mail
  nickname := a.nickname
  passphraseHash := a.passphraseHash
  bio := a.bio
  frozen := a.frozen
  silenced := a.silenced
  status := a.status

/-- A single-use verification token bound to an account and mail address. -/
structure VerifyToken where
  accountID : String
  mail : String
  token : String
  expiresAt : Nat
deriving DecidableEq, Repr

/-- Combined durable state: account records, directed follow edges
(fromID, targetID), block pairs (blockerID, blockedID) held by the follow
repository, and pending verification tokens. -/
structure Store where
  accounts : List Account
  follows : List (String × String)
  blocks : List (String × String)
  tokens : List VerifyToken
deriving DecidableEq, Repr

/-- Look up an account by its unique name. -/
def findByName (st : Store) (n : String) : Option Account :=
  st.accounts.find? (fun a => a.name == n)

/-- Look up an account by its immutable ID. -/
def findByID (st : Store) (i : String) : Option Account :=
  st.accounts.find? (fun a => a.id == i)

/-- Replace the account named `n` by `f` applied to it, leaving every other
record untouched. -/
def updateStored (st : Store) (n : String) (f : Account → Account) : Store :=
  { st with accounts := st.accounts.map (fun a => if a.name == n then f a else a) }

/-- Modelled from the spec: the Credential Encoder is an opaque one-way
encode capability; modelled as an injective tagging function. -/
def hashPassphrase (p : String) : String :=
  "argon2id:" ++ p

/-- Modelled from the spec: Credential Encoder verification of a plain
passphrase against a stored hash. -/
def verifyPassphrase (p h : String) : Bool :=
  hashPassphrase p == h

/-- Modelled from the spec: mail-address length validation for the email
edit; the spec fixes no numeric bound, so a representative RFC-style bound
is used (non-empty and at most 318 characters). -/
def mailLengthOk (m : String) : Bool :=
  m.length != 0 && m.length ≤ 318

/-- Modelled from the spec: minimum-length passphrase strength policy; the
spec fixes no numeric bound, so a representative minimum of 8 is used. -/
def passphraseOk (p : String) : Bool :=
  8 ≤ p.length

/-- Modelled from the spec: name length bound for registration; the spec
fixes no numeric bound, so a representative maximum of 64 is used. -/
def nameTooLong (n : String) : Bool :=
  64 < n.length

/-- Modelled from the spec: the reserved-name guard is a placeholder that
never rejects in the observed source. -/
def reservedName (_n : String) : Bool :=
  false

/-- Modelled from the spec: Edit Service protocol — load the current
account, recompute its etag and compare with the caller-supplied one;
mismatch fails with ETagMismatch before any mutation; on match apply the
single-field mutation; NotFound if the target account does not exist. -/
def editWith (st : Store) (etg : Etag) (target : String) (f : Account → Account) :
    Except AccountError Unit × Store :=
  match findByName st target with
  | none => (.error .notFound, st)
  | some a =>
    if computeEtag a = etg then (.ok (), updateStored st target f)
    else (.error .eTagMismatch, st)

/-- Modelled from the spec: nickname mutator of the Edit Service. -/
def editNickname (st : Store) (etg : Etag) (target newNickname _actor : String) :
    Except AccountError Unit × Store :=
  editWith st etg target (fun a => { a with nickname := newNickname })

/-- Modelled from the spec: passphrase mutator of the Edit Service; the
new passphrase is hashed through the Credential Encoder. -/
def editPassphrase (st : Store) (etg : Etag) (target newPassphrase _actor : String) :
    Except AccountError Unit × Store :=
  editWith st etg target (fun a => { a with passphraseHash := hashPassphrase newPassphrase })

/-- Modelled from the spec: email mutator of the Edit Service; additionally
rejects with MailAddressLength on invalid length. -/
def editEmail (st : Store) (etg : Etag) (target newMail _actor : String) :
    Except AccountError Unit × Store :=
  match findByName st target with
  | none => (.error .notFound, st)
  | some a =>
    if computeEtag a = etg then
      if mailLengthOk newMail then (.ok (), updateStored st target (fun b => { b with mail := newMail }))
      else (.error .mailAddressLength, st)
    else (.error .eTagMismatch, st)

/-- Modelled from the spec: bio mutator of the Edit Service. -/
def editBio (st : Store) (etg : Etag) (target newBio _actor : String) :
    Except AccountError Unit × Store :=
  editWith st etg target (fun a => { a with bio := newBio })

/-- Modelled from the spec: Authentication Token capability minting a
signed token pair for an account ID. -/
def mintTokens (i : String) : String × String :=
  ("access:" ++ i, "refresh:" ++ i)

/-- Modelled from the spec: Authenticate Service protocol — look up by
name (AccountNotFound if absent), reject with AuthenticationFailed if the
passphrase fails encoder verification, reject with LoginRejected if the
account is frozen, otherwise mint the token pair; read-only. -/
def authenticate (st : Store) (name passphrase : String) :
    Except AccountError (String × String) × Store :=
  match findByName st name with
  | none => (.error .notFound, st)
  | some a =>
    if verifyPassphrase passphrase a.passphraseHash then
      if a.frozen then (.error .loginRejected, st)
      else (.ok (mintTokens a.id), st)
    else (.error .authenticationFailed, st)

/-- Find the pending verification token for an account ID. -/
def findTokenByAccount (st : Store) (i : String) : Option VerifyToken :=
  st.tokens.find? (fun t => t.accountID == i)

/-- Modelled from the spec: VerifyToken service — load the account's
pending token; reject with TokenInvalid if missing, mismatched or expired;
on success mark the account active and delete the token. -/
def verifyAccountToken (st : Store) (now : Nat) (name token : String) :
    Except AccountError Unit × Store :=
  match findByName st name with
  | none => (.error .notFound, st)
  | some a =>
    match findTokenByAccount st a.id with
    | none => (.error .tokenInvalid, st)
    | some t =>
      if t.token ≠ token then (.error .tokenInvalid, st)
      else if t.expiresAt ≤ now then (.error .tokenInvalid, st)
      else
        (.ok (),
          { updateStored st name (fun b => { b with status := .active }) with
            tokens := st.tokens.filter (fun x => x.accountID != a.id) })

/-- Modelled from the spec: Freeze service setFreeze — requires an
elevated actor role, otherwise InsufficientPermission; rejects with
AlreadyFrozen if the target is already frozen; on success sets the frozen
flag and the status. -/
def setFreeze (st : Store) (targetName actorName : String) :
    Except AccountError Unit × Store :=
  match findByName st actorName with
  | none => (.error .notFound, st)
  | some actor =>
    if actor.role.isElevated then
      match findByName st targetName with
      | none => (.error .notFound, st)
      | some t =>
        if t.frozen then (.error .alreadyFrozen, st)
        else (.ok (), updateStored st targetName (fun b => { b with frozen := true, status := .frozen }))
    else (.error .insufficientPermission, st)

/-- Modelled from the spec: Silence service setSilence — symmetric to
freeze but governs only the silenced flag and does not alter status;
rejects with AlreadySilenced if already silenced. -/
def setSilence (st : Store) (targetName actorName : String) :
    Except AccountError Unit × Store :=
  match findByName st actorName with
  | none => (.error .notFound, st)
  | some actor =>
    if actor.role.isElevated then
      match findByName st targetName with
      | none => (.error .notFound, st)
      | some t =>
        if t.silenced then (.error .alreadySilenced, st)
        else (.ok (), updateStored st targetName (fun b => { b with silenced := true }))
    else (.error .insufficientPermission, st)

/-- Modelled from the spec: Silence service undoSilence — same permission
gating; clears only the silenced flag; no already-unsilenced error kind is
exposed. -/
def undoSilence (st : Store) (targetName actorName : String) :
    Except AccountError Unit × Store :=
  match findByName st actorName with
  | none => (.error .notFound, st)
  | some actor =>
    if actor.role.isElevated then
      match findByName st targetName with
      | none => (.error .notFound, st)
      | some _t => (.ok (), updateStored st targetName (fun b => { b with silenced := false }))
    else (.error .insufficientPermission, st)

/-- Does a follow edge from `fid` to `tid` exist? -/
def edgeExists (st : Store) (fid tid : String) : Bool :=
  st.follows.any (fun p => p.1 == fid && p.2 == tid)

/-- Has `blocker` blocked `blockee` (block-list check delegated to the
Follow Repository)? -/
def isBlocked (st : Store) (blocker blockee : String) : Bool :=
  st.blocks.any (fun p => p.1 == blocker && p.2 == blockee)

/-- Modelled from the spec: Follow service — resolve both names (NotFound
if either is missing), reject with AlreadyFollowing if the edge already
exists, reject with FollowingBlocked if the target has blocked the actor,
otherwise create the edge. -/
def follow (st : Store) (fromName targetName : String) :
    Except AccountError Unit × Store :=
  match findByName st fromName with
  | none => (.error .notFound, st)
  | some f =>
    match findByName st targetName with
    | none => (.error .notFound, st)
    | some t =>
      if edgeExists st f.id t.id then (.error .alreadyFollowing, st)
      else if isBlocked st t.id f.id then (.error .followingBlocked, st)
      else (.ok (), { st with follows := (f.id, t.id) :: st.follows })

/-- Modelled from the spec: Unfollow service — resolve both names, reject
with NotFollowing if no such edge exists, otherwise delete it. -/
def unfollow (st : Store) (fromName targetName : String) :
    Except AccountError Unit × Store :=
  match findByName st fromName with
  | none => (.error .notFound, st)
  | some f =>
    match findByName st targetName with
    | none => (.error .notFound, st)
    | some t =>
      if edgeExists st f.id t.id then
        (.ok (), { st with follows := st.follows.filter (fun p => !(p.1 == f.id && p.2 == t.id)) })
      else (.error .notFollowing, st)

/-- Modelled from the spec: FetchFollow service — the follow edges whose
from side is the given account ID. -/
def fetchFollowingsByID (st : Store) (i : String) : List (String × String) :=
  st.follows.filter (fun p => p.1 == i)

/-- Modelled from the spec: FetchFollow service — the follow edges whose
target side is the given account ID. -/
def fetchFollowersByID (st : Store) (i : String) : List (String × String) :=
  st.follows.filter (fun p => p.2 == i)

/-- Modelled from the spec: Fetch service batch lookup — partial results
only for IDs that resolve; unresolvable IDs are silently omitted. -/
def fetchManyAccountsByID (st : Store) (ids : List String) : List Account :=
  ids.filterMap (findByID st)

/-- Modelled from the spec: Register service — validate the name against
the reserved pattern and length bound, validate passphrase strength, check
name and mail uniqueness, then persist the new account with status
notActivated together with its verification token.  The identity
generator, clock and token generator are modelled as the explicit inputs
`newID`, `now` and `tokenStr`; `tokenLife` is the token validity span. -/
def registerHandle (st : Store) (newID : String) (now tokenLife : Nat) (tokenStr : String)
    (name mail nickname passphrase bio : String) (role : Role) :
    Except AccountError Account × Store :=
  if reservedName name then (.error .nameInvalidUsage, st)
  else if nameTooLong name then (.error .nameTooLong, st)
  else if !passphraseOk passphrase then (.error .passphraseRequirementsNotMet, st)
  else if st.accounts.any (fun a => a.name == name) then (.error .nameAlreadyInUse, st)
  else if st.accounts.any (fun a => a.mail == mail) then (.error .mailAddressAlreadyInUse, st)
  else
    let a : Account :=
      { id := newID, name := name, mail := mail, nickname := nickname
        passphraseHash := hashPassphrase passphrase, bio := bio, role := role
        frozen := false, silenced := false, status := .notActivated, createdAt := now }
    (.ok a,
      { st with
        accounts := st.accounts ++ [a]
        tokens := st.tokens ++ [{ accountID := newID, mail := mail, token := tokenStr, expiresAt := now + tokenLife }] })

/-- Response shape of the createAccount controller method: exactly the
created account's id, name and mail. -/
structure CreateResponse where
  id : String
  name : String
  email : String
deriving DecidableEq, Repr

/-- AccountController.createAccount: invokes the register service with an
empty nickname, an empty bio and the role normal, and on success exposes
the created account's id, name and mail. -/
def createAccount (st : Store) (newID : String) (now tokenLife : Nat) (tokenStr : String)
    (name email passphrase : String) :
    Except AccountError CreateResponse × Store :=
  match registerHandle st newID now tokenLife tokenStr name email "" passphrase "" .normal with
  | (.error e, st1) => (.error e, st1)
  | (.ok a, st1) => (.ok { id := a.id, name := a.name, email := a.mail }, st1)

/-- Request body of updateAccount: optional nickname, email and passphrase
and a mandatory bio, as validated by the route schema. -/
structure UpdateArgs where
  nickname : Option String
  email : Option String
  passphrase : Option String
  bio : String
deriving DecidableEq, Repr

/-- JavaScript truthiness of an optional string field: present and
non-empty. -/
def truthy : Option String → Bool
  | none => false
  | some s => s != ""

/-- Response shape of the updateAccount controller method. -/
structure UpdateResponse where
  id : String
  email : String
  name : String
  nickname : String
  bio : String
deriving DecidableEq, Repr

/-- The nickname step of updateAccount: invoked only when the nickname
field is truthy, with the one caller-supplied etag. -/
def stepNickname (args : UpdateArgs) (etg : Etag) (target actor : String) (st : Store) :
    Except AccountError Unit × Store :=
  if truthy args.nickname then editNickname st etg target (args.nickname.getD "") actor
  else (.ok (), st)

/-- The passphrase step of updateAccount. -/
def stepPassphrase (args : UpdateArgs) (etg : Etag) (target actor : String) (st : Store) :
    Except AccountError Unit × Store :=
  if truthy args.passphrase then editPassphrase st etg target (args.passphrase.getD "") actor
  else (.ok (), st)

/-- The email step of updateAccount. -/
def stepEmail (args : UpdateArgs) (etg : Etag) (target actor : String) (st : Store) :
    Except AccountError Unit × Store :=
  if truthy args.email then editEmail st etg target (args.email.getD "") actor
  else (.ok (), st)

/-- AccountController.updateAccount: applies the requested single-field
mutators sequentially in the order nickname, passphrase, email, bio (bio
unconditionally), each with the one caller-supplied etag, returning the
first failing step's error without rolling back earlier steps; on full
success it re-fetches the account and answers with its id, mail, name,
nickname and bio. -/
def updateAccount (st : Store) (target : String) (args : UpdateArgs) (etg : Etag) (actor : String) :
    Except AccountError UpdateResponse × Store :=
  match stepNickname args etg target actor st with
  | (.error e, st1) => (.error e, st1)
  | (.ok _, st1) =>
    match stepPassphrase args etg target actor st1 with
    | (.error e, st2) => (.error e, st2)
    | (.ok _, st2) =>
      match stepEmail args etg target actor st2 with
      | (.error e, st3) => (.error e, st3)
      | (.ok _, st3) =>
        match editBio st3 etg target args.bio actor with
        | (.error e, st4) => (.error e, st4)
        | (.ok _, st4) =>
          match findByName st4 target with
          | none => (.error .notFound, st4)
          | some acc =>
            (.ok { id := acc.id, email := acc.mail, name := acc.name
                   nickname := acc.nickname, bio := acc.bio }, st4)

/-- Display record materialized by the follower/following projections; the
avatar, header and count fields are placeholder constants in the source. -/
structure DisplayRecord where
  id : String
  email : String
  name : String
  nickname : String
  bio : String
  avatar : String
  header : String
  followedCount : Nat
  followingCount : Nat
  noteCount : Nat
  createdAt : Nat
  role : Role
  frozen : Bool
  status : AccountStatus
  silenced : Bool
deriving DecidableEq, Repr

/-- The display projection of an account used by fetchFollowing and
fetchFollower. -/
def toDisplay (a : Account) : DisplayRecord where
  id := a.id
  email := a.mail
  name := a.name
  nickname := a.nickname
  bio := a.bio
  avatar := ""
  header := ""
  followedCount := 0
  followingCount := 0
  noteCount := 0
  createdAt := a.createdAt
  role := a.role
  frozen := a.frozen
  status := a.status
  silenced := a.silenced

/-- AccountController.fetchFollowing: maps the account's follow edges to
their target IDs, joins them against the account repository (omitting IDs
that do not resolve) and materializes display records; read-only. -/
def fetchFollowing (st : Store) (i : String) :
    Except AccountError (List DisplayRecord) × Store :=
  let targetIDs := (fetchFollowingsByID st i).map (fun p => p.2)
  let accs := fetchManyAccountsByID st targetIDs
  (.ok (accs.map toDisplay), st)

/-- AccountController.fetchFollower: maps the account's follow edges to
their from IDs, joins them against the account repository (omitting IDs
that do not resolve) and materializes display records; read-only. -/
def fetchFollower (st : Store) (i : String) :
    Except AccountError (List DisplayRecord) × Store :=
  let fromIDs := (fetchFollowersByID st i).map (fun p => p.1)
  let accs := fetchManyAccountsByID st fromIDs
  (.ok (accs.map toDisplay), st)

/-- Transport-level error codes emitted by the update-account route. -/
inductive UpdateRouteError where
  | invalidEtag
  | invalidSequence
  | vulnerablePassphrase
  | accountNotFound
  | internalError
deriving DecidableEq, Repr

/-- The update-account route's mapping of domain error kinds to an HTTP
status and transport error code. -/
def mapUpdateError : AccountError → Nat × UpdateRouteError
  | .mailAddressLength => (400, .invalidSequence)
  | .passphraseRequirementsNotMet => (400, .vulnerablePassphrase)
  | .notFound => (404, .accountNotFound)
  | _ => (500, .internalError)

/-- Outcome of the update-account route: an HTTP status with either a
transport error code or the update response body. -/
inductive RouteOutcome where
  | failure (status : Nat) (code : UpdateRouteError)
  | success (status : Nat) (body : UpdateResponse)
deriving DecidableEq, Repr

/-- The UpdateAccountRoute handler: when the If-Match header is absent it
answers 412 INVALID_ETAG before invoking the controller; otherwise it
delegates to updateAccount and maps the result. -/
def updateAccountRoute (st : Store) (target actor : String) (args : UpdateArgs)
    (ifMatch : Option Etag) : RouteOutcome × Store :=
  match ifMatch with
  | none => (.failure 412 .invalidEtag, st)
  | some etg =>
    match updateAccount st target args etg actor with
    | (.error e, st1) =>
      let m := mapUpdateError e
      (.failure m.1 m.2, st1)
    | (.ok body, st1) => (.success 200 body, st1)

/-- A concrete active account used as a test fixture. -/
def accAlice : Account where
  id := "1"
  name := "alice"
  mail := "a@example.com"
  nickname := "Alice"
  passphraseHash := hashPassphrase "password1"
  bio := "hello"
  role := .normal
  frozen := false
  silenced := false
  status := .active
  createdAt := 0

/-- A store holding only `accAlice`. -/
def stC1 : Store where
  accounts := [accAlice]
  follows := []
  blocks := []
  tokens := []

/-- An etag that differs from the current etag of `accAlice`. -/
def etagWrongC1 : Etag :=
  { computeEtag accAlice with bio := "different" }

/-- An update request carrying only a nickname change besides the bio. -/
def argsC2 : UpdateArgs where
  nickname := some "N"
  email := none
  passphrase := none
  bio := "b"

/-- A concrete frozen account used as a test fixture. -/
def accBob : Account where
  id := "2"
  name := "bob"
  mail := "b@example.com"
  nickname := "Bob"
  passphraseHash := hashPassphrase "password2"
  bio := ""
  role := .normal
  frozen := true
  silenced := false
  status := .frozen
  createdAt := 0

/-- A store holding only the frozen `accBob`. -/
def stC3 : Store where
  accounts := [accBob]
  follows := []
  blocks := []
  tokens := []

/-- A concrete not-activated account used as a test fixture. -/
def accCarl : Account where
  id := "3"
  name := "carl"
  mail := "c@example.com"
  nickname := ""
  passphraseHash := hashPassphrase "password3"
  bio := ""
  role := .normal
  frozen := false
  silenced := false
  status := .notActivated
  createdAt := 0

/-- The pending verification token of `accCarl`. -/
def tokenCarl : VerifyToken where
  accountID := "3"
  mail := "c@example.com"
  token := "tok123"
  expiresAt := 100

/-- A store holding `accCarl` together with its pending token. -/
def stC4 : Store where
  accounts := [accCarl]
  follows := []
  blocks := []
  tokens := [tokenCarl]

/-- A concrete account used as the follow actor fixture. -/
def accAnn : Account where
  id := "10"
  name := "ann"
  mail := "ann@example.com"
  nickname := "Ann"
  passphraseHash := hashPassphrase "password4"
  bio := ""
  role := .normal
  frozen := false
  silenced := false
  status := .active
  createdAt := 0

/-- A concrete account used as the follow target fixture. -/
def accBen : Account where
  id := "11"
  name := "ben"
  mail := "ben@example.com"
  nickname := "Ben"
  passphraseHash := hashPassphrase "password5"
  bio := ""
  role := .normal
  frozen := false
  silenced := false
  status := .active
  createdAt := 0

/-- A store where `accBen` has blocked `accAnn` and no edge exists. -/
def stC5 : Store where
  accounts := [accAnn, accBen]
  follows := []
  blocks := [("11", "10")]
  tokens := []

/-- A store holding `accAnn` and `accBen` with no blocks and no edges. -/
def stC5b : Store where
  accounts := [accAnn, accBen]
  follows := []
  blocks := []
  tokens := []

/-- A concrete moderator account used as a test fixture. -/
def accMads : Account where
  id := "20"
  name := "mads"
  mail := "mads@example.com"
  nickname := "Mads"
  passphraseHash := hashPassphrase "password6"
  bio := ""
  role := .moderator
  frozen := false
  silenced := false
  status := .active
  createdAt := 0

/-- A concrete unfrozen normal account used as a moderation target. -/
def accTara : Account where
  id := "21"
  name := "tara"
  mail := "tara@example.com"
  nickname := "Tara"
  passphraseHash := hashPassphrase "password7"
  bio := ""
  role := .normal
  frozen := false
  silenced := false
  status := .active
  createdAt := 0

/-- A store holding the moderator `accMads` and the target `accTara`. -/
def stC6 : Store where
  accounts := [accMads, accTara]
  follows := []
  blocks := []
  tokens := []

/-- The empty store. -/
def stEmpty : Store where
  accounts := []
  follows := []
  blocks := []
  tokens := []

/-- The account produced by registering dana in the empty store. -/
def accDana : Account where
  id := "1"
  name := "dana"
  mail := "d@example.com"
  nickname := ""
  passphraseHash := hashPassphrase "longenough"
  bio := ""
  role := .normal
  frozen := false
  silenced := false
  status := .notActivated
  createdAt := 0

/-- The store resulting from registering dana in the empty store. -/
def stC9after : Store where
  accounts := [accDana]
  follows := []
  blocks := []
  tokens := [{ accountID := "1", mail := "d@example.com", token := "tok", expiresAt := 3600 }]

/-- The response produced by creating dana's account. -/
def respC9 : CreateResponse where
  id := "1"
  name := "dana"
  email := "d@example.com"

/-- Projection of every account field except the silenced flag, used to
state frame properties of the silence operations. -/
def frameFields (a : Account) :
    String × String × String × String × String × String × Role × Bool × AccountStatus × Nat :=
  (a.id, a.name, a.mail, a.nickname, a.passphraseHash, a.bio, a.role, a.frozen, a.status, a.createdAt)

theorem find?_map_stable {α : Type} (l : List α) (g : α → α) (p : α → Bool)
    (h : ∀ a, p (g a) = p a) : (l.map g).find? p = (l.find? p).map g := by
  induction l with
  | nil => rfl
  | cons x xs ih =>
    by_cases hp : p x
    · rw [List.map_cons, List.find?_cons_of_pos _ (by rw [h]; exact hp),
        List.find?_cons_of_pos _ hp, Option.map_some']
    · rw [List.map_cons, List.find?_cons_of_neg _ (by rw [h]; exact hp),
        List.find?_cons_of_neg _ hp, ih]

theorem findByName_updateStored (st : Store) (n : String) (f : Account → Account)
    (hf : ∀ a, (f a).name = a.name) (m : String) :
    findByName (updateStored st n f) m =
      (findByName st m).map (fun a => if a.name == n then f a else a) := by
  unfold findByName updateStored
  exact find?_map_stable _ _ _ (fun a => by by_cases h : a.name == n <;> simp [h, hf])

theorem findByName_updateStored_self (st : Store) (n : String) (f : Account → Account)
    (hf : ∀ a, (f a).name = a.name) (a : Account) (ha : findByName st n = some a) :
    findByName (updateStored st n f) n = some (f a) := by
  rw [findByName_updateStored st n f hf n, ha, Option.map_some']
  have hp : a.name = n := by
    unfold findByName at ha
    simpa using List.find?_some ha
  simp [hp]

theorem findByName_updateStored_map (st : Store) (n : String) (f : Account → Account)
    (hf : ∀ a, (f a).name = a.name) {β : Type} (h : Account → β)
    (hh : ∀ a, h (f a) = h a) (m : String) :
    (findByName (updateStored st n f) m).map h = (findByName st m).map h := by
  rw [findByName_updateStored st n f hf m]
  cases findByName st m with
  | none => rfl
  | some a => by_cases hc : a.name = n <;> simp [hc, hh]

theorem findToken_after_delete (l : List VerifyToken) (i : String) :
    (l.filter (fun x => x.accountID != i)).find? (fun t => t.accountID == i) = none := by
  rw [List.find?_eq_none]
  intro t ht
  have h2 := (List.mem_filter.mp ht).2
  simp only [bne_iff_ne, ne_eq] at h2
  simp [h2]

theorem edge_after_filter (l : List (String × String)) (x y : String) :
    (l.filter (fun p => !(p.1 == x && p.2 == y))).any (fun p => p.1 == x && p.2 == y) = false := by
  rw [List.any_eq_false]
  intro p hp
  have h2 := (List.mem_filter.mp hp).2
  simp only [Bool.not_eq_true'] at h2
  simp [h2]

/-- C1 (amended): for every stored account and caller-supplied etag, an
etag differing from the account's current etag makes every edit mutator
fail with ETagMismatch and leaves the store unchanged; a matching etag
makes editNickname, editPassphrase and editBio succeed and persist the new
field value, while editEmail succeeds exactly when the new mail has valid
length and otherwise fails with MailAddressLength leaving the store
unchanged; after a successful edit the stored account's etag equals the
old etag exactly when the written value equals the previous field value
(for the passphrase, when the new hash equals the stored hash). -/
theorem C1_edit_etag_protocol (st : Store) (target actor : String) (a : Account)
    (ha : findByName st target = some a) (etg : Etag) (v : String) :
    (etg ≠ computeEtag a →
      editNickname st etg target v actor = (.error .eTagMismatch, st) ∧
      editPassphrase st etg target v actor = (.error .eTagMismatch, st) ∧
      editEmail st etg target v actor = (.error .eTagMismatch, st) ∧
      editBio st etg target v actor = (.error .eTagMismatch, st)) ∧
    (etg = computeEtag a →
      ((editNickname st etg target v actor).1 = .ok () ∧
        findByName (editNickname st etg target v actor).2 target = some { a with nickname := v } ∧
        (computeEtag { a with nickname := v } = computeEtag a ↔ v = a.nickname)) ∧
      ((editPassphrase st etg target v actor).1 = .ok () ∧
        findByName (editPassphrase st etg target v actor).2 target =
          some { a with passphraseHash := hashPassphrase v } ∧
        (computeEtag { a with passphraseHash := hashPassphrase v } = computeEtag a ↔
          hashPassphrase v = a.passphraseHash)) ∧
      (mailLengthOk v = true →
        (editEmail st etg target v actor).1 = .ok () ∧
        findByName (editEmail st etg target v actor).2 target = some { a with mail := v } ∧
        (computeEtag { a with mail := v } = computeEtag a ↔ v = a.mail)) ∧
      (mailLengthOk v = false →
        editEmail st etg target v actor = (.error .mailAddressLength, st)) ∧
      ((editBio st etg target v actor).1 = .ok () ∧
        findByName (editBio st etg target v actor).2 target = some { a with bio := v } ∧
        (computeEtag { a with bio := v } = computeEtag a ↔ v = a.bio))) := by
  constructor
  · intro hne
    have hcond : ¬(computeEtag a = etg) := fun h => hne h.symm
    refine ⟨?_, ?_, ?_, ?_⟩
    · simp [editNickname, editWith, ha, hcond]
    · simp [editPassphrase, editWith, ha, hcond]
    · simp [editEmail, ha, hcond]
    · simp [editBio, editWith, ha, hcond]
  · intro heq
    subst heq
    refine ⟨⟨?_, ?_, ?_⟩, ⟨?_, ?_, ?_⟩, ?_, ?_, ⟨?_, ?_, ?_⟩⟩
    · simp [editNickname, editWith, ha]
    · simp only [editNickname, editWith, ha, if_true]
      exact findByName_updateStored_self st target
        (fun b => { b with nickname := v }) (fun b => rfl) a ha
    · simp [computeEtag, Etag.mk.injEq, eq_comm]
    · simp [editPassphrase, editWith, ha]
    · simp only [editPassphrase, editWith, ha, if_true]
      exact findByName_updateStored_self st target
        (fun b => { b with passphraseHash := hashPassphrase v }) (fun b => rfl) a ha
    · simp [computeEtag, Etag.mk.injEq, eq_comm]
    · intro hm
      refine ⟨?_, ?_, ?_⟩
      · simp [editEmail, ha, hm]
      · simp only [editEmail, ha, hm, if_true]
        exact findByName_updateStored_self st target
          (fun b => { b with mail := v }) (fun b => rfl) a ha
      · simp [computeEtag, Etag.mk.injEq, eq_comm]
    · intro hm
      simp [editEmail, ha, hm]
    · simp [editBio, editWith, ha]
    · simp only [editBio, editWith, ha, if_true]
      exact findByName_updateStored_self st target
        (fun b => { b with bio := v }) (fun b => rfl) a ha
    · simp [computeEtag, Etag.mk.injEq, eq_comm]

/-- C1 counterexample: with the current etag, editBio rewriting the bio to
its present value succeeds but leaves the stored account's etag equal to
the etag before, and editEmail with the current etag but an empty mail
fails with MailAddressLength rather than succeeding — both refuting the
claim that an edit with the current etag always succeeds and always yields
a different etag afterwards. -/
theorem C1_counterexample :
    ((editBio stC1 (computeEtag accAlice) "alice" accAlice.bio "alice").1 = .ok () ∧
      (findByName (editBio stC1 (computeEtag accAlice) "alice" accAlice.bio "alice").2
          "alice").map computeEtag = some (computeEtag accAlice)) ∧
    (editEmail stC1 (computeEtag accAlice) "alice" "" "alice").1 = .error .mailAddressLength :=
  ⟨⟨rfl, rfl⟩, rfl⟩

/-- C1 witness: the amended theorem applied to the concrete store holding
alice with a stale etag. -/
theorem C1_witness :
    editNickname stC1 etagWrongC1 "alice" "X" "alice" = (.error .eTagMismatch, stC1) :=
  ((C1_edit_etag_protocol stC1 "alice" "alice" accAlice (by decide) etagWrongC1 "X").1
    (by decide)).1

/-- C2: updateAccount applies the requested single-field mutators
sequentially in the fixed order nickname, passphrase, email, then bio (the
bio edit is unconditional), each with the one caller-supplied etag; the
result is the first failing step's error together with the store reached
at that point (earlier successful mutations are not rolled back), and on
full success the response is the re-fetched account's id, mail, name,
nickname and bio. -/
theorem C2_updateAccount_sequencing (st : Store) (target actor : String)
    (args : UpdateArgs) (etg : Etag) :
    (∀ e st1, stepNickname args etg target actor st = (.error e, st1) →
      updateAccount st target args etg actor = (.error e, st1)) ∧
    (∀ st1 e st2, stepNickname args etg target actor st = (.ok (), st1) →
      stepPassphrase args etg target actor st1 = (.error e, st2) →
      updateAccount st target args etg actor = (.error e, st2)) ∧
    (∀ st1 st2 e st3, stepNickname args etg target actor st = (.ok (), st1) →
      stepPassphrase args etg target actor st1 = (.ok (), st2) →
      stepEmail args etg target actor st2 = (.error e, st3) →
      updateAccount st target args etg actor = (.error e, st3)) ∧
    (∀ st1 st2 st3 e st4, stepNickname args etg target actor st = (.ok (), st1) →
      stepPassphrase args etg target actor st1 = (.ok (), st2) →
      stepEmail args etg target actor st2 = (.ok (), st3) →
      editBio st3 etg target args.bio actor = (.error e, st4) →
      updateAccount st target args etg actor = (.error e, st4)) ∧
    (∀ st1 st2 st3 st4 acc, stepNickname args etg target actor st = (.ok (), st1) →
      stepPassphrase args etg target actor st1 = (.ok (), st2) →
      stepEmail args etg target actor st2 = (.ok (), st3) →
      editBio st3 etg target args.bio actor = (.ok (), st4) →
      findByName st4 target = some acc →
      updateAccount st target args etg actor =
        (.ok { id := acc.id, email := acc.mail, name := acc.name
               nickname := acc.nickname, bio := acc.bio }, st4)) := by
  refine ⟨?_, ?_, ?_, ?_, ?_⟩
  · intro e st1 h1
    simp [updateAccount, h1]
  · intro st1 e st2 h1 h2
    simp [updateAccount, h1, h2]
  · intro st1 st2 e st3 h1 h2 h3
    simp [updateAccount, h1, h2, h3]
  · intro st1 st2 st3 e st4 h1 h2 h3 h4
    simp [updateAccount, h1, h2, h3, h4]
  · intro st1 st2 st3 st4 acc h1 h2 h3 h4 h5
    simp [updateAccount, h1, h2, h3, h4, h5]

/-- C2 witness: the sequencing theorem applied to the concrete store
holding alice, a request carrying a nickname, and a stale etag; the
nickname step fails first and its error is the result. -/
theorem C2_witness :
    updateAccount stC1 "alice" argsC2 etagWrongC1 "alice" = (.error .eTagMismatch, stC1) :=
  (C2_updateAccount_sequencing stC1 "alice" "alice" argsC2 etagWrongC1).1
    .eTagMismatch stC1 (by decide)

/-- C3 (amended): for every store, Authenticate is read-only, and for every
stored account it returns AuthenticationFailed whenever the passphrase
fails Credential Encoder verification (the passphrase check precedes the
frozen check), and returns LoginRejected for a frozen account whenever the
passphrase verifies. -/
theorem C3_authenticate_protocol (st : Store) (name p : String) :
    (authenticate st name p).2 = st ∧
    ∀ a, findByName st name = some a →
      (verifyPassphrase p a.passphraseHash = false →
        authenticate st name p = (.error .authenticationFailed, st)) ∧
      (verifyPassphrase p a.passphraseHash = true → a.frozen = true →
        authenticate st name p = (.error .loginRejected, st)) := by
  constructor
  · unfold authenticate
    cases hb : findByName st name with
    | none => rfl
    | some a =>
      by_cases hv : verifyPassphrase p a.passphraseHash <;>
        by_cases hf : a.frozen <;> simp [hv, hf]
  · intro a ha
    constructor
    · intro hv
      simp [authenticate, ha, hv]
    · intro hv hf
      simp [authenticate, ha, hv, hf]

/-- C3 counterexample: bob is frozen, yet Authenticate with a wrong
passphrase answers AuthenticationFailed rather than LoginRejected —
refuting the claim that a frozen account yields LoginRejected regardless
of passphrase correctness. -/
theorem C3_counterexample :
    accBob.frozen = true ∧
    (authenticate stC3 "bob" "wrong-passphrase").1 = .error .authenticationFailed := by
  decide

/-- C3 witness: the protocol theorem applied to the concrete store holding
the frozen bob with his correct passphrase. -/
theorem C3_witness :
    authenticate stC3 "bob" "password2" = (.error .loginRejected, stC3) :=
  (((C3_authenticate_protocol stC3 "bob" "password2").2 accBob (by decide)).2
    (by decide) (by decide))

/-- C4: for every not-activated account with a pending token, verify with
the matching, unexpired token succeeds, marks the account active and
deletes the token, so a second verify with the same token fails with
TokenInvalid; and verify fails with TokenInvalid whenever the pending
token is missing, mismatched or expired. -/
theorem C4_verifyToken_protocol (st : Store) (now : Nat) (name tok : String) (a : Account)
    (ha : findByName st name = some a) (_hs : a.status = .notActivated) :
    (findTokenByAccount st a.id = none →
      verifyAccountToken st now name tok = (.error .tokenInvalid, st)) ∧
    ∀ t, findTokenByAccount st a.id = some t →
      (t.token ≠ tok → verifyAccountToken st now name tok = (.error .tokenInvalid, st)) ∧
      (t.expiresAt ≤ now → verifyAccountToken st now name tok = (.error .tokenInvalid, st)) ∧
      (t.token = tok → now < t.expiresAt →
        (verifyAccountToken st now name tok).1 = .ok () ∧
        (findByName (verifyAccountToken st now name tok).2 name).map (fun b => b.status) =
          some .active ∧
        findTokenByAccount (verifyAccountToken st now name tok).2 a.id = none ∧
        (verifyAccountToken (verifyAccountToken st now name tok).2 now name tok).1 =
          .error .tokenInvalid) := by
  constructor
  · intro hto
    simp [verifyAccountToken, ha, hto]
  · intro t hto
    refine ⟨?_, ?_, ?_⟩
    · intro hne
      simp [verifyAccountToken, ha, hto, hne]
    · intro hle
      by_cases htt : t.token ≠ tok <;> simp [verifyAccountToken, ha, hto, htt, hle]
    · intro ht hlt
      have hnotle : ¬(t.expiresAt ≤ now) := Nat.not_le.mpr hlt
      have hrun : verifyAccountToken st now name tok =
          (.ok (), { updateStored st name (fun b => { b with status := .active }) with
                     tokens := st.tokens.filter (fun x => x.accountID != a.id) }) := by
        simp [verifyAccountToken, ha, hto, ht, hnotle]
      have hfind : findByName ({ updateStored st name (fun b => { b with status := .active }) with
          tokens := st.tokens.filter (fun x => x.accountID != a.id) }) name =
          some { a with status := .active } :=
        findByName_updateStored_self st name (fun b => { b with status := .active })
          (fun b => rfl) a ha
      have htok : findTokenByAccount ({ updateStored st name (fun b => { b with status := .active }) with
          tokens := st.tokens.filter (fun x => x.accountID != a.id) }) a.id = none :=
        findToken_after_delete st.tokens a.id
      refine ⟨?_, ?_, ?_, ?_⟩
      · rw [hrun]
      · rw [hrun]
        simp [hfind]
      · rw [hrun]
        exact htok
      · rw [hrun]
        simp [verifyAccountToken, hfind, htok]

/-- C4 witness: the protocol theorem applied to the concrete store holding
the not-activated carl with his pending unexpired token. -/
theorem C4_witness :
    (verifyAccountToken stC4 0 "carl" "tok123").1 = .ok () ∧
    (findByName (verifyAccountToken stC4 0 "carl" "tok123").2 "carl").map (fun b => b.status) =
      some .active ∧
    findTokenByAccount (verifyAccountToken stC4 0 "carl" "tok123").2 accCarl.id = none ∧
    (verifyAccountToken (verifyAccountToken stC4 0 "carl" "tok123").2 0 "carl" "tok123").1 =
      .error .tokenInvalid :=
  (((C4_verifyToken_protocol stC4 0 "carl" "tok123" accCarl (by decide) (by decide)).2
    tokenCarl (by decide)).2.2 (by decide) (by decide))

theorem findByName_withFollows (st : Store) (x : List (String × String)) (n : String) :
    findByName { st with follows := x } n = findByName st n := rfl

/-- C5 (amended): for every pair of existing accounts, Follow twice yields
AlreadyFollowing unless the target has blocked the actor while no edge
exists yet; Unfollow twice always yields NotFollowing on the second call;
and Follow followed by Unfollow always leaves no follow edge from the
actor to the target. -/
theorem C5_follow_unfollow_algebra (st : Store) (fromN targetN : String) (f t : Account)
    (hf : findByName st fromN = some f) (ht : findByName st targetN = some t) :
    ((edgeExists st f.id t.id = true ∨ isBlocked st t.id f.id = false) →
      (follow (follow st fromN targetN).2 fromN targetN).1 = .error .alreadyFollowing) ∧
    (unfollow (unfollow st fromN targetN).2 fromN targetN).1 = .error .notFollowing ∧
    edgeExists (unfollow (follow st fromN targetN).2 fromN targetN).2 f.id t.id = false := by
  refine ⟨?_, ?_, ?_⟩
  · intro hcase
    by_cases he : edgeExists st f.id t.id
    · simp [follow, hf, ht, he]
    · have hb : isBlocked st t.id f.id = false := by
        rcases hcase with h | h
        · exact absurd h he
        · exact h
      have hrun : follow st fromN targetN =
          (.ok (), { st with follows := (f.id, t.id) :: st.follows }) := by
        simp [follow, hf, ht, he, hb]
      rw [hrun]
      simp [follow, findByName_withFollows, hf, ht, edgeExists]
  · by_cases he : edgeExists st f.id t.id
    · have hrun : unfollow st fromN targetN =
          (.ok (), { st with follows :=
            st.follows.filter (fun p => !(p.1 == f.id && p.2 == t.id)) }) := by
        simp [unfollow, hf, ht, he]
      rw [hrun]
      have he2 : edgeExists
          { st with follows := st.follows.filter (fun p => !(p.1 == f.id && p.2 == t.id)) }
          f.id t.id = false :=
        edge_after_filter st.follows f.id t.id
      simp only [unfollow, findByName_withFollows, hf, ht]
      rw [he2]
      simp
    · have he' : edgeExists st f.id t.id = false := by simpa using he
      have hrun : unfollow st fromN targetN = (.error .notFollowing, st) := by
        simp [unfollow, hf, ht, he']
      rw [hrun]
      simp [unfollow, hf, ht, he']
  · by_cases he : edgeExists st f.id t.id
    · have hrun : follow st fromN targetN = (.error .alreadyFollowing, st) := by
        simp [follow, hf, ht, he]
      rw [hrun]
      have hrun2 : unfollow st fromN targetN =
          (.ok (), { st with follows :=
            st.follows.filter (fun p => !(p.1 == f.id && p.2 == t.id)) }) := by
        simp [unfollow, hf, ht, he]
      rw [hrun2]
      exact edge_after_filter st.follows f.id t.id
    · by_cases hb : isBlocked st t.id f.id
      · have hrun : follow st fromN targetN = (.error .followingBlocked, st) := by
          simp [follow, hf, ht, he, hb]
        rw [hrun]
        have he' : edgeExists st f.id t.id = false := by simpa using he
        have hrun2 : unfollow st fromN targetN = (.error .notFollowing, st) := by
          simp [unfollow, hf, ht, he']
        rw [hrun2]
        exact he'
      · have hb' : isBlocked st t.id f.id = false := by simpa using hb
        have hrun : follow st fromN targetN =
            (.ok (), { st with follows := (f.id, t.id) :: st.follows }) := by
          simp [follow, hf, ht, he, hb']
        rw [hrun]
        have he1 : edgeExists { st with follows := (f.id, t.id) :: st.follows } f.id t.id = true := by
          simp [edgeExists]
        have hrun2 : unfollow { st with follows := (f.id, t.id) :: st.follows } fromN targetN =
            (.ok (), { st with follows :=
              ((f.id, t.id) :: st.follows).filter (fun p => !(p.1 == f.id && p.2 == t.id)) }) := by
          simp [unfollow, findByName_withFollows, hf, ht, he1]
        rw [hrun2]
        exact edge_after_filter ((f.id, t.id) :: st.follows) f.id t.id

/-- C5 counterexample: ben has blocked ann and no edge exists, so the
second Follow yields FollowingBlocked rather than AlreadyFollowing —
refuting the claim that Follow twice always yields AlreadyFollowing for
every pair of existing accounts. -/
theorem C5_counterexample :
    (follow (follow stC5 "ann" "ben").2 "ann" "ben").1 = .error .followingBlocked := by
  decide

/-- C5 witness: the algebra theorem applied to the concrete unblocked
store holding ann and ben. -/
theorem C5_witness :
    (follow (follow stC5b "ann" "ben").2 "ann" "ben").1 = .error .alreadyFollowing :=
  (C5_follow_unfollow_algebra stC5b "ann" "ben" accAnn accBen (by decide) (by decide)).1
    (Or.inr (by decide))

/-- C6: for every existing target and actor, setFreeze by an actor without
an elevated role fails with InsufficientPermission and leaves the store —
hence the target's frozen flag — unchanged; setFreeze by an elevated actor
on an unfrozen target succeeds and sets the target's frozen flag, and a
second setFreeze on the same target then fails with AlreadyFrozen. -/
theorem C6_freeze_protocol (st : Store) (targetN actorN : String) (actor t : Account)
    (hactor : findByName st actorN = some actor) (ht : findByName st targetN = some t) :
    (actor.role.isElevated = false →
      setFreeze st targetN actorN = (.error .insufficientPermission, st)) ∧
    (actor.role.isElevated = true → t.frozen = false →
      (setFreeze st targetN actorN).1 = .ok () ∧
      (findByName (setFreeze st targetN actorN).2 targetN).map (fun b => b.frozen) = some true ∧
      (setFreeze (setFreeze st targetN actorN).2 targetN actorN).1 = .error .alreadyFrozen) := by
  constructor
  · intro hrole
    simp [setFreeze, hactor, ht, hrole]
  · intro hrole hfro
    have hrun : setFreeze st targetN actorN =
        (.ok (), updateStored st targetN (fun b => { b with frozen := true, status := .frozen })) := by
      simp [setFreeze, hactor, ht, hrole, hfro]
    have hselft : findByName
        (updateStored st targetN (fun b => { b with frozen := true, status := .frozen })) targetN
        = some { t with frozen := true, status := .frozen } :=
      findByName_updateStored_self st targetN
        (fun b => { b with frozen := true, status := .frozen }) (fun b => rfl) t ht
    have hactor2 : findByName
        (updateStored st targetN (fun b => { b with frozen := true, status := .frozen })) actorN
        = some (if actor.name == targetN
            then { actor with frozen := true, status := .frozen } else actor) := by
      rw [findByName_updateStored st targetN
        (fun b => { b with frozen := true, status := .frozen }) (fun b => rfl) actorN,
        hactor, Option.map_some']
    have hrole2 : (if actor.name = targetN
        then { actor with frozen := true, status := .frozen } else actor).role.isElevated = true := by
      by_cases hc : actor.name = targetN <;> simp [hc, hrole]
    refine ⟨?_, ?_, ?_⟩
    · rw [hrun]
    · rw [hrun, hselft]
      rfl
    · rw [hrun]
      simp [setFreeze, hactor2, hrole2, hselft]

/-- C6 witness: the freeze theorem applied to the concrete store holding
the moderator mads and the unfrozen target tara. -/
theorem C6_witness :
    (setFreeze stC6 "tara" "mads").1 = .ok () ∧
    (findByName (setFreeze stC6 "tara" "mads").2 "tara").map (fun b => b.frozen) = some true ∧
    (setFreeze (setFreeze stC6 "tara" "mads").2 "tara" "mads").1 = .error .alreadyFrozen :=
  (C6_freeze_protocol stC6 "tara" "mads" accMads accTara (by decide) (by decide)).2
    (by decide) (by decide)

theorem setSilence_snd (st : Store) (targetN actorN : String) :
    (setSilence st targetN actorN).2 = st ∨
    (setSilence st targetN actorN).2 =
      updateStored st targetN (fun b => { b with silenced := true }) := by
  unfold setSilence
  cases findByName st actorN with
  | none => exact Or.inl rfl
  | some actor =>
    by_cases hr : actor.role.isElevated
    · cases findByName st targetN with
      | none => simp [hr]
      | some t =>
        by_cases hs : t.silenced
        · simp [hr, hs]
        · simp [hr, hs]
    · simp [hr]

theorem undoSilence_snd (st : Store) (targetN actorN : String) :
    (undoSilence st targetN actorN).2 = st ∨
    (undoSilence st targetN actorN).2 =
      updateStored st targetN (fun b => { b with silenced := false }) := by
  unfold undoSilence
  cases findByName st actorN with
  | none => exact Or.inl rfl
  | some actor =>
    by_cases hr : actor.role.isElevated
    · cases findByName st targetN with
      | none => simp [hr]
      | some t => simp [hr]
    · simp [hr]

theorem findByName_updateStored_other (st : Store) (n : String) (f : Account → Account)
    (hf : ∀ a, (f a).name = a.name) (m : String) (hm : m ≠ n) :
    findByName (updateStored st n f) m = findByName st m := by
  rw [findByName_updateStored st n f hf m]
  cases hb : findByName st m with
  | none => rfl
  | some a =>
    have hp : a.name = m := by
      unfold findByName at hb
      simpa using List.find?_some hb
    rw [Option.map_some']
    have hc : ¬(a.name == n) = true := by
      simp [hp, hm]
    simp [hc]

/-- C7: setSilence and undoSilence mutate only the target's silenced flag —
for every account in the store, the projection onto all fields except
silenced (id, name, mail, nickname, passphrase hash, bio, role, frozen,
status, createdAt) is unchanged by both operations, and every account
other than the target is wholly unchanged, its silenced flag included. -/
theorem C7_silence_frame (st : Store) (targetN actorN n : String) :
    ((findByName (setSilence st targetN actorN).2 n).map frameFields =
        (findByName st n).map frameFields ∧
      (findByName (undoSilence st targetN actorN).2 n).map frameFields =
        (findByName st n).map frameFields) ∧
    (n ≠ targetN →
      findByName (setSilence st targetN actorN).2 n = findByName st n ∧
      findByName (undoSilence st targetN actorN).2 n = findByName st n) := by
  constructor
  · constructor
    · rcases setSilence_snd st targetN actorN with h | h
      · rw [h]
      · rw [h]
        exact findByName_updateStored_map st targetN (fun b => { b with silenced := true })
          (fun b => rfl) frameFields (fun b => rfl) n
    · rcases undoSilence_snd st targetN actorN with h | h
      · rw [h]
      · rw [h]
        exact findByName_updateStored_map st targetN (fun b => { b with silenced := false })
          (fun b => rfl) frameFields (fun b => rfl) n
  · intro hn
    constructor
    · rcases setSilence_snd st targetN actorN with h | h
      · rw [h]
      · rw [h]
        exact findByName_updateStored_other st targetN (fun b => { b with silenced := true })
          (fun b => rfl) n hn
    · rcases undoSilence_snd st targetN actorN with h | h
      · rw [h]
      · rw [h]
        exact findByName_updateStored_other st targetN (fun b => { b with silenced := false })
          (fun b => rfl) n hn

/-- C7 witness: the frame theorem applied to silencing tara in the store
holding mads and tara — mads, not being the target, is wholly unchanged. -/
theorem C7_witness :
    (findByName (setSilence stC6 "tara" "mads").2 "mads").map frameFields =
      (findByName stC6 "mads").map frameFields ∧
    findByName (setSilence stC6 "tara" "mads").2 "mads" = findByName stC6 "mads" :=
  ⟨((C7_silence_frame stC6 "tara" "mads" "mads").1).1,
    ((C7_silence_frame stC6 "tara" "mads" "mads").2 (by decide)).1⟩

/-- C8: fetchFollowing maps the account's follow edges to their target IDs
and fetchFollower maps them to their from IDs, each joined against the
account store to one display record per ID that resolves, silently
omitting IDs that do not resolve; neither operation mutates the store. -/
theorem C8_fetchFollow_projection (st : Store) (i : String) :
    (fetchFollowing st i).2 = st ∧
    (fetchFollowing st i).1 =
      .ok (((fetchFollowingsByID st i).map (fun p => p.2)).filterMap
        (fun tid => (findByID st tid).map toDisplay)) ∧
    (fetchFollower st i).2 = st ∧
    (fetchFollower st i).1 =
      .ok (((fetchFollowersByID st i).map (fun p => p.1)).filterMap
        (fun fid => (findByID st fid).map toDisplay)) := by
  refine ⟨rfl, ?_, rfl, ?_⟩
  · simp only [fetchFollowing, fetchManyAccountsByID, List.map_filterMap]
  · simp only [fetchFollower, fetchManyAccountsByID, List.map_filterMap]

/-- C10: for every store and update-account request that omits the
If-Match header, the route handler answers 412 INVALID_ETAG and leaves the
store unchanged — the controller's updateAccount is never consulted. -/
theorem C10_route_missing_ifmatch (st : Store) (target actor : String) (args : UpdateArgs) :
    updateAccountRoute st target actor args none = (.failure 412 .invalidEtag, st) :=
  rfl

theorem registerHandle_ok (st : Store) (newID : String) (now tokenLife : Nat) (tokenStr : String)
    (name mail nickname passphrase bio : String) (role : Role) (a : Account) (st1 : Store)
    (h : registerHandle st newID now tokenLife tokenStr name mail nickname passphrase bio role =
      (.ok a, st1)) :
    a = { id := newID, name := name, mail := mail, nickname := nickname,
          passphraseHash := hashPassphrase passphrase, bio := bio, role := role,
          frozen := false, silenced := false, status := .notActivated, createdAt := now } ∧
    st1.accounts = st.accounts ++ [a] := by
  unfold registerHandle at h
  split_ifs at h with h1 h2 h3 h4 h5
  · exact absurd h (by simp)
  · exact absurd h (by simp)
  · exact absurd h (by simp)
  · exact absurd h (by simp)
  · exact absurd h (by simp)
  · simp only [Prod.mk.injEq, Except.ok.injEq] at h
    obtain ⟨hA, hS⟩ := h
    subst hA
    subst hS
    exact ⟨rfl, rfl⟩

theorem editWith_snd (st : Store) (etg : Etag) (target : String) (f : Account → Account) :
    (editWith st etg target f).2 = st ∨
    (editWith st etg target f).2 = updateStored st target f := by
  unfold editWith
  cases findByName st target with
  | none => exact Or.inl rfl
  | some a => by_cases hc : computeEtag a = etg <;> simp [hc]

theorem editEmail_snd (st : Store) (etg : Etag) (target v actor : String) :
    (editEmail st etg target v actor).2 = st ∨
    (editEmail st etg target v actor).2 =
      updateStored st target (fun b => { b with mail := v }) := by
  unfold editEmail
  cases findByName st target with
  | none => exact Or.inl rfl
  | some a =>
    by_cases hc : computeEtag a = etg
    · by_cases hm : mailLengthOk v <;> simp [hc, hm]
    · simp [hc]

/-- C9: every account created through createAccount is appended to the
store with role normal, empty nickname and empty bio, and the success
response exposes exactly the created account's id, name and mail; and the
edit path preserves every account's role, so no account created through
this surface can come to hold an elevated role through it. -/
theorem C9_createAccount_invariants :
    (∀ st newID now tokenLife tokenStr name email passphrase resp st1,
      createAccount st newID now tokenLife tokenStr name email passphrase = (.ok resp, st1) →
      ∃ a : Account,
        st1.accounts = st.accounts ++ [a] ∧ a.role = .normal ∧ a.nickname = "" ∧ a.bio = "" ∧
        resp = { id := a.id, name := a.name, email := a.mail }) ∧
    (∀ st2 etg target v actor n,
      (findByName (editNickname st2 etg target v actor).2 n).map (fun b => b.role) =
        (findByName st2 n).map (fun b => b.role) ∧
      (findByName (editPassphrase st2 etg target v actor).2 n).map (fun b => b.role) =
        (findByName st2 n).map (fun b => b.role) ∧
      (findByName (editEmail st2 etg target v actor).2 n).map (fun b => b.role) =
        (findByName st2 n).map (fun b => b.role) ∧
      (findByName (editBio st2 etg target v actor).2 n).map (fun b => b.role) =
        (findByName st2 n).map (fun b => b.role)) := by
  constructor
  · intro st newID now tokenLife tokenStr name email passphrase resp st1 h
    unfold createAccount at h
    cases hreg : registerHandle st newID now tokenLife tokenStr name email "" passphrase "" .normal with
    | mk r s =>
      rw [hreg] at h
      cases r with
      | error e => simp at h
      | ok a =>
        simp only [Prod.mk.injEq, Except.ok.injEq] at h
        obtain ⟨hresp, hst⟩ := h
        obtain ⟨hA, hAcc⟩ := registerHandle_ok st newID now tokenLife tokenStr
          name email "" passphrase "" .normal a s hreg
        subst hst
        refine ⟨a, hAcc, ?_, ?_, ?_, hresp.symm⟩
        · rw [hA]
        · rw [hA]
        · rw [hA]
  · intro st2 etg target v actor n
    refine ⟨?_, ?_, ?_, ?_⟩
    · unfold editNickname
      rcases editWith_snd st2 etg target (fun b => { b with nickname := v }) with h | h
      · rw [h]
      · rw [h]
        exact findByName_updateStored_map st2 target (fun b => { b with nickname := v })
          (fun b => rfl) (fun b => b.role) (fun b => rfl) n
    · unfold editPassphrase
      rcases editWith_snd st2 etg target
        (fun b => { b with passphraseHash := hashPassphrase v }) with h | h
      · rw [h]
      · rw [h]
        exact findByName_updateStored_map st2 target
          (fun b => { b with passphraseHash := hashPassphrase v })
          (fun b => rfl) (fun b => b.role) (fun b => rfl) n
    · rcases editEmail_snd st2 etg target v actor with h | h
      · rw [h]
      · rw [h]
        exact findByName_updateStored_map st2 target (fun b => { b with mail := v })
          (fun b => rfl) (fun b => b.role) (fun b => rfl) n
    · unfold editBio
      rcases editWith_snd st2 etg target (fun b => { b with bio := v }) with h | h
      · rw [h]
      · rw [h]
        exact findByName_updateStored_map st2 target (fun b => { b with bio := v })
          (fun b => rfl) (fun b => b.role) (fun b => rfl) n

/-- C9 witness: the invariants theorem applied to registering dana in the
empty store. -/
theorem C9_witness :
    ∃ a : Account, stC9after.accounts = stEmpty.accounts ++ [a] ∧ a.role = .normal ∧
      a.nickname = "" ∧ a.bio = "" ∧ respC9 = { id := a.id, name := a.name, email := a.mail } :=
  (C9_createAccount_invariants).1 stEmpty "1" 0 3600 "tok" "dana" "d@example.com" "longenough"
    respC9 stC9after (by decide)
